import Mathlib

/-!
Verification development for the cargo-geiger scan-and-report engine.

The Rust sources embedded here are:
  * `src/cargo-geiger/src/args.rs` (CLI argument model `Args`, `parse_features`,
    `Args::parse_args`, `Verbosity`),
  * `src/cargo-geiger/src/scan/forbid.rs` (`scan_forbid_to_report`),
  * `src/cargo-geiger/src/scan/default.rs` (`scan`, `scan_to_report`,
    `build_compile_options`).

Functions and types that live outside those files (the scanner `find_unsafe`,
the aggregator `package_metrics`, `unsafe_stats`,
`list_files_used_but_not_scanned`, the graph type and its inversion, and the
serde report types) are modelled from the specification; each such definition
carries a doc comment starting with `Modelled from the spec:`.

External effectful collaborators (the scanner and the compiled-file-set
resolver) are represented as oracles in a `ScanEnv`; every embedded scan
function additionally returns the list of external calls it performed, so that
claims about which collaborator is invoked, with which scan mode, become
provable statements about the returned trace.
-/

set_option autoImplicit false

/-- Output formats of the report (`OutputFormat` in `format/print_config.rs`,
as listed by the help text of `args.rs`). -/
inductive OutputFormat where
  | Ascii
  | GitHubMarkdown
  | Json
  | Utf8
  | Ratio
deriving DecidableEq, Repr

/-- `Verbosity` from `args.rs`. -/
inductive Verbosity where
  | Verbose
  | Normal
  | Quiet
deriving DecidableEq, Repr

/-- `impl Default for Verbosity` from `args.rs`: the default is `Verbose`. -/
def Verbosity.default : Verbosity := Verbosity.Verbose

/-- `DepsArgs` from `args.rs`. -/
structure DepsArgs where
  all_deps : Bool
  build_deps : Bool
  dev_deps : Bool
deriving DecidableEq, Repr

/-- `FeaturesArgs` from `args.rs`. -/
structure FeaturesArgs where
  all_features : Bool
  features : List String
  no_default_features : Bool
deriving DecidableEq, Repr

/-- `TargetArgs` from `args.rs`. -/
structure TargetArgs where
  all_targets : Bool
  target : Option String
deriving DecidableEq, Repr

/-- `ReadmeArgs` from `args.rs`. -/
structure ReadmeArgs where
  readme_path : Option String
  section_name : Option String
  update_readme : Bool
deriving DecidableEq, Repr

/-- `Args` from `args.rs`. -/
structure Args where
  all : Bool
  color : Option String
  deps_args : DepsArgs
  features_args : FeaturesArgs
  forbid_only : Bool
  format : String
  frozen : Bool
  help : Bool
  include_tests : Bool
  invert : Bool
  locked : Bool
  manifest_path : Option String
  no_indent : Bool
  offline : Bool
  output_format : OutputFormat
  package : Option String
  prefix_depth : Bool
  quiet : Bool
  readme_args : ReadmeArgs
  target_args : TargetArgs
  unstable_flags : List String
  verbosity : Verbosity
  version : Bool
deriving DecidableEq, Repr

/-- The command line as observed through `pico_args::Arguments` in
`Args::parse_args`. Each field records the answer the external `pico_args`
library gives to the corresponding `contains`/`opt_value_from_str` query made
by `parse_args`; parsing of the raw token stream itself is external to the
repository. -/
structure Arguments where
  contains_all : Bool
  color : Option String
  contains_all_dependencies : Bool
  contains_build_dependencies : Bool
  contains_dev_dependencies : Bool
  contains_all_features : Bool
  features : Option String
  contains_no_default_features : Bool
  contains_forbid_only : Bool
  format : Option String
  contains_frozen : Bool
  contains_help : Bool
  contains_include_tests : Bool
  contains_invert : Bool
  contains_locked : Bool
  manifest_path : Option String
  contains_no_indent : Bool
  contains_offline : Bool
  package : Option String
  contains_prefix_depth : Bool
  contains_quiet : Bool
  readme_path : Option String
  section_name : Option String
  contains_update_readme : Bool
  contains_all_targets : Bool
  target : Option String
  unstable_flags : Option String
  contains_version : Bool
  contains_vv : Bool
  contains_v_or_verbose : Bool
  output_format : Option OutputFormat
deriving DecidableEq, Repr

/-- An `Arguments` value with every flag absent, mirroring an empty command
line. -/
def Arguments.empty : Arguments where
  contains_all := false
  color := none
  contains_all_dependencies := false
  contains_build_dependencies := false
  contains_dev_dependencies := false
  contains_all_features := false
  features := none
  contains_no_default_features := false
  contains_forbid_only := false
  format := none
  contains_frozen := false
  contains_help := false
  contains_include_tests := false
  contains_invert := false
  contains_locked := false
  manifest_path := none
  contains_no_indent := false
  contains_offline := false
  package := none
  contains_prefix_depth := false
  contains_quiet := false
  readme_path := none
  section_name := none
  contains_update_readme := false
  contains_all_targets := false
  target := none
  unstable_flags := none
  contains_version := false
  contains_vv := false
  contains_v_or_verbose := false
  output_format := none

/-- Helper embedding Rust `str::split` with a single-character separator:
splits at every occurrence of the separator, keeping empty fragments (used
with separator a space, like `split(' ')` in `args.rs`). Written by structural
recursion over the character list so the kernel can evaluate it. -/
def splitCharsAux (sep : Char) : List Char → List Char → List (List Char)
  | acc, [] => [acc.reverse]
  | acc, c :: rest =>
    if c = sep then acc.reverse :: splitCharsAux sep [] rest
    else splitCharsAux sep (c :: acc) rest

/-- Rust `s.split(sep)` for a one-character separator, as a `String` function. -/
def splitChar (sep : Char) (s : String) : List String :=
  (splitCharsAux sep [] s.toList).map List.asString

/-- `parse_features` from `args.rs`: take the raw `--features` value (absent
becomes the empty string), split on single spaces, keep the non-empty
fragments. -/
def parse_features (raw_features : Option String) : List String :=
  (splitChar ' ' (raw_features.getD "")).filter (fun f => !(f == ""))

/-- `Args::parse_args` from `args.rs`. The construction of each field mirrors
the Rust field initialisers; the final `if` is the `--update-readme` fixup
that forces `output_format` to `GitHubMarkdown`. The embedding is total
because the fallible steps (`opt_value_from_str`) are answered by the
`Arguments` record. -/
def Args.parse_args (raw_args : Arguments) : Args :=
  let args : Args :=
    { all := raw_args.contains_all
      color := raw_args.color
      deps_args :=
        { all_deps := raw_args.contains_all_dependencies
          build_deps := raw_args.contains_build_dependencies
          dev_deps := raw_args.contains_dev_dependencies }
      features_args :=
        { all_features := raw_args.contains_all_features
          features := parse_features raw_args.features
          no_default_features := raw_args.contains_no_default_features }
      forbid_only := raw_args.contains_forbid_only
      format := raw_args.format.getD "{p}"
      frozen := raw_args.contains_frozen
      help := raw_args.contains_help
      include_tests := raw_args.contains_include_tests
      invert := raw_args.contains_invert
      locked := raw_args.contains_locked
      manifest_path := raw_args.manifest_path
      no_indent := raw_args.contains_no_indent
      offline := raw_args.contains_offline
      package := raw_args.package
      prefix_depth := raw_args.contains_prefix_depth
      quiet := raw_args.contains_quiet
      readme_args :=
        { readme_path := raw_args.readme_path
          section_name := raw_args.section_name
          update_readme := raw_args.contains_update_readme }
      target_args :=
        { all_targets := raw_args.contains_all_targets
          target := raw_args.target }
      unstable_flags :=
        match raw_args.unstable_flags with
        | some s => splitChar ' ' s
        | none => []
      version := raw_args.contains_version
      verbosity :=
        match raw_args.contains_vv, raw_args.contains_v_or_verbose with
        | false, false => Verbosity.Quiet
        | false, true => Verbosity.Normal
        | true, _ => Verbosity.Verbose
      output_format := raw_args.output_format.getD OutputFormat.Utf8 }
  if args.readme_args.update_readme &&
      !(args.output_format == OutputFormat.GitHubMarkdown) then
    { args with output_format := OutputFormat.GitHubMarkdown }
  else
    args

/-! ## Scan data model

Identifiers and per-file metrics. The metrics types live in the
`cargo-geiger-serde` crate and in `scan/mod.rs`, outside the embedded source
files, so they are modelled from the specification (§3 DATA MODEL). -/

/-- Package identifier (spec §3: unique id built from name, version and source
origin; `cargo_metadata::PackageId` in the code). -/
abbrev PackageId := String

/-- Canonical source-file path. -/
abbrev RsPath := String

/-- Modelled from the spec: a `\x7bsafe_count, unsafe_count\x7d` pair for one
safety category (spec §3, CounterBlock). -/
structure Count where
  safe_count : Nat
  unsafe_count : Nat
deriving DecidableEq, Repr

/-- Modelled from the spec: per-category counters for one file (spec §3:
free functions, expressions, trait implementations, inherent methods, trait
declarations). -/
structure CounterBlock where
  functions : Count
  exprs : Count
  item_impls : Count
  item_traits : Count
  methods : Count
deriving DecidableEq, Repr

/-- Zero counters. -/
def CounterBlock.zero : CounterBlock :=
  ⟨⟨0, 0⟩, ⟨0, 0⟩, ⟨0, 0⟩, ⟨0, 0⟩, ⟨0, 0⟩⟩

/-- Pointwise sum of two `Count`s. -/
def Count.add (a b : Count) : Count :=
  ⟨a.safe_count + b.safe_count, a.unsafe_count + b.unsafe_count⟩

/-- Pointwise sum of two `CounterBlock`s. -/
def CounterBlock.add (a b : CounterBlock) : CounterBlock :=
  ⟨a.functions.add b.functions, a.exprs.add b.exprs, a.item_impls.add b.item_impls,
    a.item_traits.add b.item_traits, a.methods.add b.methods⟩

/-- Modelled from the spec: `SourceFileMetrics` (spec §3) — the counters of
one file together with the `forbids_escape` flag (named `forbids_unsafe` in
the code; `forbidsUnsafe` here). -/
structure RsFileMetrics where
  counters : CounterBlock
  forbidsUnsafe : Bool
deriving DecidableEq, Repr

/-- Modelled from the spec: the wrapper around per-file metrics stored in a
package's `rs_path_to_metrics` map; the report builders in the embedded
sources access its `metrics` field. -/
structure RsFileMetricsWrapper where
  metrics : RsFileMetrics
deriving DecidableEq, Repr

/-- Modelled from the spec: per-package metrics — the ordered per-file
breakdown keyed by canonical path (spec §3, PackageMetrics / ScanContext
entry), accessed as `rs_path_to_metrics` by both report builders. -/
structure PackageMetrics where
  rs_path_to_metrics : List (RsPath × RsFileMetricsWrapper)
deriving DecidableEq, Repr

/-- Modelled from the spec: the ScanContext (spec §3) produced by the Source
Scanner — package id to ordered per-file metrics (called `GeigerContext` in
the code). -/
structure GeigerContext where
  pack_id_to_metrics : List (PackageId × PackageMetrics)
deriving DecidableEq, Repr

/-- All paths the scanner visited, i.e. every path recorded in the
ScanContext (spec §3: the scanned set). -/
def visitedPaths (geiger_context : GeigerContext) : List RsPath :=
  (geiger_context.pack_id_to_metrics.map
    (fun q => q.2.rs_path_to_metrics.map Prod.fst)).flatten

/-- Package descriptor carried into report entries (spec §3: unique id; the
code uses a `cargo_geiger_serde::PackageInfo`, whose identity is its id). -/
structure Package where
  id : PackageId
deriving DecidableEq, Repr

/-! ## Report shapes and map helpers

The serde report types are outside the embedded sources; modelled from the
spec (§3 Report, §4.5 Report Builder). The code stores entries in maps keyed
by package id and diagnostic id-sets; these are modelled as association lists
with replace-on-insert semantics and membership-tested set insertion. -/

/-- Map insertion with the key-replacing semantics of the code's
`insert(key, value)`. -/
def insertMap {α : Type} : List (PackageId × α) → PackageId → α → List (PackageId × α)
  | [], k, v => [(k, v)]
  | (k', v') :: t, k, v =>
    if k' = k then (k, v) :: t else (k', v') :: insertMap t k v

/-- Map lookup by key. -/
def lookupMap {α : Type} (m : List (PackageId × α)) (k : PackageId) : Option α :=
  (m.find? (fun q => q.1 == k)).map Prod.snd

/-- Set insertion (`HashSet::insert`): add the id if it is not present. -/
def insertSet (s : List PackageId) (k : PackageId) : List PackageId :=
  if s.contains k then s else s ++ [k]

/-- `QuickReportEntry` of the quick (forbid-only) report: the package and its
single boolean verdict (`forbids_unsafe` in the code). -/
structure QuickReportEntry where
  package : Package
  forbidsUnsafe : Bool
deriving DecidableEq, Repr

/-- Modelled from the spec: `QuickSafetyReport` — per-package verdict entries
plus the `packages_without_metrics` diagnostic set (spec §3 Report, §4.5
Quick report). -/
structure QuickSafetyReport where
  packages : List (PackageId × QuickReportEntry)
  packages_without_metrics : List PackageId
deriving DecidableEq, Repr

/-- `QuickSafetyReport::default()`: both collections empty. -/
def QuickSafetyReport.default : QuickSafetyReport := ⟨[], []⟩

/-- Modelled from the spec: the aggregated per-package unsafety statistics of
the full report (spec §4.4/§4.5): CounterBlock sums split by membership in
the compiled file set, plus the all-files-forbid flag. -/
structure UnsafeInfo where
  used : CounterBlock
  unused : CounterBlock
  forbidsUnsafe : Bool
deriving DecidableEq, Repr

/-- Modelled from the spec: `unsafe_stats` (spec §4.4 Metrics Aggregator):
sum the CounterBlocks of the package's owned files, split into those
confirmed part of the compiled file set and the rest; the forbid flag holds
iff every owned file forbids the escape construct. -/
def unsafeStats (pack_metrics : PackageMetrics) (rs_files_used : List RsPath) :
    UnsafeInfo where
  used :=
    ((pack_metrics.rs_path_to_metrics.filter
        (fun q => rs_files_used.contains q.1)).map
      (fun q => q.2.metrics.counters)).foldl CounterBlock.add CounterBlock.zero
  unused :=
    ((pack_metrics.rs_path_to_metrics.filter
        (fun q => !(rs_files_used.contains q.1))).map
      (fun q => q.2.metrics.counters)).foldl CounterBlock.add CounterBlock.zero
  forbidsUnsafe :=
    pack_metrics.rs_path_to_metrics.all (fun q => q.2.metrics.forbidsUnsafe)

/-- `ReportEntry` of the full report: package descriptor plus aggregated
unsafety statistics. -/
structure ReportEntry where
  package : Package
  unsafety : UnsafeInfo
deriving DecidableEq, Repr

/-- Modelled from the spec: `SafetyReport` — per-package entries plus the two
diagnostic sets (spec §3 Report). -/
structure SafetyReport where
  packages : List (PackageId × ReportEntry)
  packages_without_metrics : List PackageId
  used_but_not_scanned_files : List RsPath
deriving DecidableEq, Repr

/-- `SafetyReport::default()`: all collections empty. -/
def SafetyReport.default : SafetyReport := ⟨[], [], []⟩

/-- Modelled from the spec: `list_files_used_but_not_scanned` — the paths of
the compiled file set that the scanner never visited, i.e.
`CompiledFileSet − ScanContext.visited_paths` (spec §4.2 coverage gap). -/
def list_files_used_but_not_scanned (geiger_context : GeigerContext)
    (rs_files_used : List RsPath) : List RsPath :=
  rs_files_used.filter (fun p => !((visitedPaths geiger_context).contains p))

/-! ## Dependency graph

The graph type and its inversion live in `graph.rs`, outside the embedded
sources; modelled from the spec (§3 Graph, §4.1). -/

/-- Modelled from the spec: dependency edge kinds (spec §3:
kind ∈ \x7bNormal, Build, Dev\x7d). -/
inductive DependencyKind where
  | Normal
  | Build
  | Dev
deriving DecidableEq, Repr

/-- Modelled from the spec: a directed dependency edge with its kind
(direction = "depends on", spec §3). -/
structure GraphEdge where
  source : Nat
  target : Nat
  kind : DependencyKind
deriving DecidableEq, Repr

/-- Modelled from the spec: node set + edge set + designated root (spec §3),
nodes indexed by integer ids (spec §9). -/
structure Graph where
  nodes : List PackageId
  edges : List GraphEdge
  root_index : Nat
deriving DecidableEq, Repr

/-- Swap the endpoints of one edge, keeping its kind. -/
def GraphEdge.transpose (e : GraphEdge) : GraphEdge :=
  ⟨e.target, e.source, e.kind⟩

/-- Modelled from the spec: inversion — the reversed-edge (transposed
adjacency) view of the graph; the canonical node set and root are not
touched (spec §3/§4.1). -/
def Graph.invert (g : Graph) : Graph :=
  { g with edges := g.edges.map GraphEdge.transpose }

/-! ## External collaborators, call traces, and the scan drivers

`find_unsafe` (the Source Scanner) and `resolve_rs_file_deps` (the
Compiled-File-Set Resolver) are collaborators outside the embedded sources;
they appear as oracles in a `ScanEnv`. Each embedded scan function returns,
next to its result, the list of oracle calls it performed, so that claims
about who is invoked and with which scan mode are statements about the
returned trace. -/

/-- `ScanMode` from `scan/mod.rs` as used by both embedded drivers. -/
inductive ScanMode where
  | Full
  | EntryPointsOnly
deriving DecidableEq, Repr

/-- Error of the compiled-file-set resolver (`RsResolveError`; spec §7
`BuildResolutionError`). -/
structure RsResolveError where
  msg : String
deriving DecidableEq, Repr

/-- `cargo::CliError` as far as the embedded code constructs and propagates
it: a message and an exit code. -/
structure CliError where
  msg : String
  exit_code : Nat
deriving DecidableEq, Repr

/-- `CliError::new(error, code)`. -/
def CliError.new (msg : String) (exit_code : Nat) : CliError :=
  ⟨msg, exit_code⟩

/-- One call to an external collaborator, as recorded in a trace. -/
inductive ExtCall where
  | findUnsafeCall (mode : ScanMode)
  | resolveRsFileDepsCall
deriving DecidableEq, Repr

/-- Outcome of running an embedded function: normal value, propagated
`CliError`, or a Rust `panic!`. -/
inductive RunResult (α : Type) where
  | ok : α → RunResult α
  | err : CliError → RunResult α
  | panicked : String → RunResult α
deriving DecidableEq, Repr

/-- The fields of `cargo::ops::CompileOptions` that `build_compile_options`
in `scan/default.rs` sets: the CLI feature selection (check-only mode is
fixed). -/
structure CompileOptions where
  all_features : Bool
  features : List String
  uses_default_features : Bool
deriving DecidableEq, Repr

/-- `build_compile_options` from `scan/default.rs`: construct check-mode
compile options carrying the feature selection; `uses_default_features` is
the negation of `--no-default-features`. -/
def build_compile_options (args : FeaturesArgs) : CompileOptions where
  all_features := args.all_features
  features := args.features
  uses_default_features := !args.no_default_features

/-- The external collaborators of the embedded scan drivers, as oracles:
the Source Scanner (`find_unsafe`), the Metrics Aggregator
(`package_metrics`), and the Compiled-File-Set Resolver
(`resolve_rs_file_deps`). -/
structure ScanEnv where
  findUnsafe : ScanMode → Except CliError GeigerContext
  packageMetricsFn :
    GeigerContext → Graph → PackageId → List (Package × Option PackageMetrics)
  resolveRsFileDeps : CompileOptions → Except RsResolveError (List RsPath)

/-- `ScanParameters` from `scan/mod.rs` as consumed by the embedded drivers:
the parsed CLI arguments (the config and print-config handles are opaque
external state and carry no data the embedded code reads). -/
structure ScanParameters where
  args : Args
deriving DecidableEq, Repr

/-- `ScanResult` from `scan/mod.rs`: output lines and a warning count. -/
structure ScanResult where
  scan_output_lines : List String
  warning_count : Nat
deriving DecidableEq, Repr

/-- `ScanDetails` from `scan/mod.rs`: the compiled file set and the
ScanContext produced by `scan`. -/
structure ScanDetails where
  rs_files_used : List RsPath
  geiger_context : GeigerContext
deriving DecidableEq, Repr

/-- `package_metrics` as invoked by both report builders: delegate to the
aggregator oracle with the ScanContext, graph and root id. -/
def package_metrics (env : ScanEnv) (geiger_context : GeigerContext)
    (graph : Graph) (root_package_id : PackageId) :
    List (Package × Option PackageMetrics) :=
  env.packageMetricsFn geiger_context graph root_package_id

/-! ## Serialization

`serde_json::to_string` on the report types is external; modelled from the
spec (§4.5: both report shapes are serializable with stable field order and
package-identifier keys). Fields are emitted in declaration order and map
entries in the order in which the builder inserted them. -/

/-- Quote a string as a JSON string literal. -/
def jsonStr (s : String) : String := "\"" ++ s ++ "\""

/-- Comma-join already-serialized fragments. -/
def jsonJoin (xs : List String) : String := String.intercalate "," xs

/-- JSON boolean. -/
def jsonBool (b : Bool) : String := if b then "true" else "false"

/-- Modelled from the spec: serialize one `Count`. -/
def serializeCount (c : Count) : String :=
  "\x7b\"safe\":" ++ toString c.safe_count ++
    ",\"unsafe\":" ++ toString c.unsafe_count ++ "\x7d"

/-- Modelled from the spec: serialize a `CounterBlock` with its five
categories in declaration order. -/
def serializeCounterBlock (b : CounterBlock) : String :=
  "\x7b\"functions\":" ++ serializeCount b.functions ++
    ",\"exprs\":" ++ serializeCount b.exprs ++
    ",\"item_impls\":" ++ serializeCount b.item_impls ++
    ",\"item_traits\":" ++ serializeCount b.item_traits ++
    ",\"methods\":" ++ serializeCount b.methods ++ "\x7d"

/-- Modelled from the spec: serialize an `UnsafeInfo`. -/
def serializeUnsafeInfo (u : UnsafeInfo) : String :=
  "\x7b\"used\":" ++ serializeCounterBlock u.used ++
    ",\"unused\":" ++ serializeCounterBlock u.unused ++
    ",\"forbids_unsafe\":" ++ jsonBool u.forbidsUnsafe ++ "\x7d"

/-- Modelled from the spec: serialize one full-report entry. -/
def serializeReportEntry (e : ReportEntry) : String :=
  "\x7b\"package\":" ++ jsonStr e.package.id ++
    ",\"unsafety\":" ++ serializeUnsafeInfo e.unsafety ++ "\x7d"

/-- Modelled from the spec: serialize one quick-report entry. -/
def serializeQuickReportEntry (e : QuickReportEntry) : String :=
  "\x7b\"package\":" ++ jsonStr e.package.id ++
    ",\"forbids_unsafe\":" ++ jsonBool e.forbidsUnsafe ++ "\x7d"

/-- Modelled from the spec: serialize the quick report with stable field
order and package-identifier keys. -/
def serializeQuickReport (r : QuickSafetyReport) : String :=
  "\x7b\"packages\":\x7b" ++
    jsonJoin (r.packages.map
      (fun q => jsonStr q.1 ++ ":" ++ serializeQuickReportEntry q.2)) ++
    "\x7d,\"packages_without_metrics\":[" ++
    jsonJoin (r.packages_without_metrics.map jsonStr) ++ "]\x7d"

/-- Modelled from the spec: serialize the full report with stable field
order and package-identifier keys. -/
def serializeSafetyReport (r : SafetyReport) : String :=
  "\x7b\"packages\":\x7b" ++
    jsonJoin (r.packages.map
      (fun q => jsonStr q.1 ++ ":" ++ serializeReportEntry q.2)) ++
    "\x7d,\"packages_without_metrics\":[" ++
    jsonJoin (r.packages_without_metrics.map jsonStr) ++
    "],\"used_but_not_scanned_files\":[" ++
    jsonJoin (r.used_but_not_scanned_files.map jsonStr) ++ "]\x7d"

/-! ## The two report builders and the scan drivers

`scan_forbid_to_report` embeds the loop of `scan/forbid.rs` lines 55-79;
`scan` and `scan_to_report` embed `scan/default.rs` lines 96-121 and
123-169. The per-package loops are factored into `build_quick_report` and
`build_safety_report` so that the constructed report is a named value the
theorems can speak about; the drivers use exactly these builders. -/

/-- The report-building loop of `scan_forbid_to_report` (`scan/forbid.rs`
lines 55-79): start from `QuickSafetyReport::default()`; a package whose
metrics lookup yields nothing goes into `packages_without_metrics` and is
skipped; otherwise its verdict is `all` of the per-file forbid flags and the
entry is inserted under the package id. -/
def quick_report_step (report : QuickSafetyReport)
    (pair : Package × Option PackageMetrics) : QuickSafetyReport :=
  match pair.2 with
  | none =>
    { report with
        packages_without_metrics :=
          insertSet report.packages_without_metrics pair.1.id }
  | some pack_metrics =>
    let entry : QuickReportEntry :=
      ⟨pair.1,
        pack_metrics.rs_path_to_metrics.all
          (fun q => q.2.metrics.forbidsUnsafe)⟩
    { report with
        packages := insertMap report.packages entry.package.id entry }

/-- The whole loop of `scan_forbid_to_report`: fold `quick_report_step` over
the aggregator's output, starting from the default (empty) report. -/
def build_quick_report
    (package_metrics_list : List (Package × Option PackageMetrics)) :
    QuickSafetyReport :=
  package_metrics_list.foldl quick_report_step QuickSafetyReport.default

/-- `scan_forbid_to_report` from `scan/forbid.rs`: run the scanner in
`EntryPointsOnly` mode (propagating its error), build the quick report over
`package_metrics`, and serialize it for `OutputFormat::Json`; any other
output format hits the `panic!`. The first component is the trace of
external calls. -/
def scan_forbid_to_report (env : ScanEnv) (graph : Graph)
    (output_format : OutputFormat) (root_package_id : PackageId) :
    List ExtCall × RunResult ScanResult :=
  match env.findUnsafe ScanMode.EntryPointsOnly with
  | Except.error e =>
    ([ExtCall.findUnsafeCall ScanMode.EntryPointsOnly], RunResult.err e)
  | Except.ok geiger_context =>
    let report :=
      build_quick_report
        (package_metrics env geiger_context graph root_package_id)
    match output_format with
    | OutputFormat.Json =>
      ([ExtCall.findUnsafeCall ScanMode.EntryPointsOnly],
        RunResult.ok ⟨[serializeQuickReport report], 0⟩)
    | _ =>
      ([ExtCall.findUnsafeCall ScanMode.EntryPointsOnly],
        RunResult.panicked "Only implemented for OutputFormat::Json")

/-- `scan` from `scan/default.rs` lines 96-121: build the compile options,
ask the compiled-file-set resolver, and only on its success run the scanner
in `Full` mode; a resolver failure becomes `CliError::new(err, 1)` without
the scanner ever being called. -/
def scan (env : ScanEnv) (scan_parameters : ScanParameters) :
    List ExtCall × RunResult ScanDetails :=
  let compile_options :=
    build_compile_options scan_parameters.args.features_args
  match env.resolveRsFileDeps compile_options with
  | Except.ok rs_files_used =>
    match env.findUnsafe ScanMode.Full with
    | Except.ok geiger_context =>
      ([ExtCall.resolveRsFileDepsCall, ExtCall.findUnsafeCall ScanMode.Full],
        RunResult.ok ⟨rs_files_used, geiger_context⟩)
    | Except.error e =>
      ([ExtCall.resolveRsFileDepsCall, ExtCall.findUnsafeCall ScanMode.Full],
        RunResult.err e)
  | Except.error rs_resolve_error =>
    ([ExtCall.resolveRsFileDepsCall],
      RunResult.err (CliError.new rs_resolve_error.msg 1))

/-- The report-building part of `scan_to_report` (`scan/default.rs` lines
135-159): the same per-package loop as the quick builder but with
`unsafe_stats` entries, followed by the assignment of
`used_but_not_scanned_files`. -/
def safety_report_step (rs_files_used : List RsPath) (report : SafetyReport)
    (pair : Package × Option PackageMetrics) : SafetyReport :=
  match pair.2 with
  | none =>
    { report with
        packages_without_metrics :=
          insertSet report.packages_without_metrics pair.1.id }
  | some pack_metrics =>
    let entry : ReportEntry :=
      ⟨pair.1, unsafeStats pack_metrics rs_files_used⟩
    { report with
        packages := insertMap report.packages entry.package.id entry }

/-- The whole report construction of `scan_to_report`: fold
`safety_report_step` over the aggregator's output starting from the default
(empty) report, then assign the `used_but_not_scanned_files` diagnostic. -/
def build_safety_report
    (package_metrics_list : List (Package × Option PackageMetrics))
    (rs_files_used : List RsPath) (geiger_context : GeigerContext) :
    SafetyReport :=
  let report :=
    package_metrics_list.foldl (safety_report_step rs_files_used)
      SafetyReport.default
  { report with
      used_but_not_scanned_files :=
        list_files_used_but_not_scanned geiger_context rs_files_used }

/-- `scan_to_report` from `scan/default.rs` lines 123-169: run `scan`
(propagating its failure, so no report exists after a resolution failure),
build the full report, and serialize it for `OutputFormat::Json`; any other
output format hits the `panic!`. -/
def scan_to_report (env : ScanEnv) (graph : Graph)
    (output_format : OutputFormat) (root_package_id : PackageId)
    (scan_parameters : ScanParameters) :
    List ExtCall × RunResult ScanResult :=
  match scan env scan_parameters with
  | (trace, RunResult.err e) => (trace, RunResult.err e)
  | (trace, RunResult.panicked msg) => (trace, RunResult.panicked msg)
  | (trace, RunResult.ok scan_details) =>
    let report :=
      build_safety_report
        (package_metrics env scan_details.geiger_context graph
          root_package_id)
        scan_details.rs_files_used scan_details.geiger_context
    match output_format with
    | OutputFormat.Json =>
      (trace, RunResult.ok ⟨[serializeSafetyReport report], 0⟩)
    | _ =>
      (trace, RunResult.panicked "Only implemented for OutputFormat::Json")

/-! ## Concrete inputs used by the witness theorems -/

/-- A file record that forbids the escape construct. -/
def demoFileMetrics : RsFileMetricsWrapper := ⟨⟨CounterBlock.zero, true⟩⟩

/-- A one-file package metrics record. -/
def demoPM : PackageMetrics := ⟨[("src/lib.rs", demoFileMetrics)]⟩

/-- Aggregator output with one measured package and one package without
metrics. -/
def demoList : List (Package × Option PackageMetrics) :=
  [(⟨"pkg-a"⟩, some demoPM), (⟨"pkg-b"⟩, none)]

/-- A ScanContext in which only `src/lib.rs` of `pkg-a` was visited. -/
def demoCtx : GeigerContext := ⟨[("pkg-a", demoPM)]⟩

/-- A two-node graph rooted at node 0. -/
def demoGraph : Graph :=
  ⟨["pkg-a", "pkg-b"], [⟨0, 1, DependencyKind.Normal⟩], 0⟩

/-- Scan parameters obtained from an empty command line. -/
def demoSP : ScanParameters := ⟨Args.parse_args Arguments.empty⟩

/-- A resolver oracle that reports two compiled files. -/
def demoResolveOk : CompileOptions → Except RsResolveError (List RsPath) :=
  fun _ => Except.ok ["src/lib.rs", "src/extra.rs"]

/-- A resolver oracle that cannot produce a compile plan. -/
def demoResolveFail : CompileOptions → Except RsResolveError (List RsPath) :=
  fun _ => Except.error ⟨"no compile plan"⟩

/-- An aggregator oracle returning `demoList`. -/
def demoPackageMetricsFn :
    GeigerContext → Graph → PackageId → List (Package × Option PackageMetrics) :=
  fun _ _ _ => demoList

/-- A scanner oracle that succeeds in `Full` mode only. -/
def demoFindA : ScanMode → Except CliError GeigerContext :=
  fun m =>
    match m with
    | ScanMode.Full => Except.ok demoCtx
    | ScanMode.EntryPointsOnly => Except.error (CliError.new "no quick scan" 1)

/-- A scanner oracle that succeeds in both modes. -/
def demoFindB : ScanMode → Except CliError GeigerContext :=
  fun _ => Except.ok demoCtx

/-- Environment whose scanner fails in `EntryPointsOnly` mode. -/
def demoEnvA : ScanEnv := ⟨demoFindA, demoPackageMetricsFn, demoResolveOk⟩

/-- Environment whose scanner succeeds in both modes; agrees with `demoEnvA`
on `Full` mode, on the resolver and on the aggregator. -/
def demoEnvB : ScanEnv := ⟨demoFindB, demoPackageMetricsFn, demoResolveOk⟩

/-- Environment whose resolver fails. -/
def demoEnvFail : ScanEnv := ⟨demoFindB, demoPackageMetricsFn, demoResolveFail⟩

/-- A command line carrying `--update-readme` and `--output-format Ascii`. -/
def argsReadme : Arguments :=
  { Arguments.empty with
      contains_update_readme := true
      output_format := some OutputFormat.Ascii }

/-! ## Helper lemmas: map and set operations -/

theorem lookupMap_insertMap_self {α : Type} (m : List (PackageId × α))
    (k : PackageId) (v : α) : lookupMap (insertMap m k v) k = some v := by
  induction m with
  | nil => simp [insertMap, lookupMap]
  | cons hd t ih =>
    obtain ⟨k', v'⟩ := hd
    by_cases hk : k' = k
    · subst hk; simp [insertMap, lookupMap]
    · simpa [insertMap, hk, lookupMap] using ih

theorem lookupMap_insertMap_ne {α : Type} (m : List (PackageId × α))
    (k k' : PackageId) (v : α) (h : k' ≠ k) :
    lookupMap (insertMap m k v) k' = lookupMap m k' := by
  have hk : ¬(k = k') := fun e => h e.symm
  induction m with
  | nil => simp [insertMap, lookupMap, hk]
  | cons hd t ih =>
    obtain ⟨k'', v''⟩ := hd
    by_cases he : k'' = k
    · subst he; simp [insertMap, lookupMap, hk]
    · by_cases he' : k'' = k'
      · subst he'; simp [insertMap, he, lookupMap]
      · simpa [insertMap, he, lookupMap, he'] using ih

theorem mem_insertSet (s : List PackageId) (k x : PackageId) :
    x ∈ insertSet s k ↔ x ∈ s ∨ x = k := by
  unfold insertSet
  split
  · next hc =>
    have hk : k ∈ s := List.elem_iff.mp hc
    constructor
    · exact Or.inl
    · rintro (h | rfl)
      · exact h
      · exact hk
  · simp [List.mem_append]

theorem mem_insertSet_self (s : List PackageId) (k : PackageId) :
    k ∈ insertSet s k := (mem_insertSet s k k).mpr (Or.inr rfl)

theorem mem_insertSet_of_mem (s : List PackageId) (k x : PackageId)
    (h : x ∈ s) : x ∈ insertSet s k := (mem_insertSet s k x).mpr (Or.inl h)

/-! ## Helper lemmas: how the two report-building steps act on each field -/

theorem quick_report_step_some_packages (r : QuickSafetyReport) (p : Package)
    (pm : PackageMetrics) :
    (quick_report_step r (p, some pm)).packages =
      insertMap r.packages p.id
        ⟨p, pm.rs_path_to_metrics.all (fun q => q.2.metrics.forbidsUnsafe)⟩ :=
  rfl

theorem quick_report_step_some_without (r : QuickSafetyReport) (p : Package)
    (pm : PackageMetrics) :
    (quick_report_step r (p, some pm)).packages_without_metrics =
      r.packages_without_metrics := rfl

theorem quick_report_step_none_packages (r : QuickSafetyReport)
    (p : Package) : (quick_report_step r (p, none)).packages = r.packages :=
  rfl

theorem quick_report_step_none_without (r : QuickSafetyReport)
    (p : Package) :
    (quick_report_step r (p, none)).packages_without_metrics =
      insertSet r.packages_without_metrics p.id := rfl

theorem safety_report_step_some_packages (rs : List RsPath)
    (r : SafetyReport) (p : Package) (pm : PackageMetrics) :
    (safety_report_step rs r (p, some pm)).packages =
      insertMap r.packages p.id ⟨p, unsafeStats pm rs⟩ := rfl

theorem safety_report_step_some_without (rs : List RsPath)
    (r : SafetyReport) (p : Package) (pm : PackageMetrics) :
    (safety_report_step rs r (p, some pm)).packages_without_metrics =
      r.packages_without_metrics := rfl

theorem safety_report_step_none_packages (rs : List RsPath)
    (r : SafetyReport) (p : Package) :
    (safety_report_step rs r (p, none)).packages = r.packages := rfl

theorem safety_report_step_none_without (rs : List RsPath)
    (r : SafetyReport) (p : Package) :
    (safety_report_step rs r (p, none)).packages_without_metrics =
      insertSet r.packages_without_metrics p.id := rfl

/-! ## Helper lemmas: the quick-report fold -/

theorem quick_foldl_lookup_untouched (k : PackageId) :
    ∀ (l : List (Package × Option PackageMetrics)) (r : QuickSafetyReport),
      (∀ pair ∈ l, pair.1.id ≠ k) →
      lookupMap (l.foldl quick_report_step r).packages k =
        lookupMap r.packages k := by
  intro l
  induction l with
  | nil => intro r _; rfl
  | cons hd t ih =>
    intro r h
    have hp : hd.1.id ≠ k := h hd (List.mem_cons_self _ _)
    have ht : ∀ pair ∈ t, pair.1.id ≠ k := fun pair hq =>
      h pair (List.mem_cons_of_mem _ hq)
    rw [List.foldl_cons, ih _ ht]
    obtain ⟨p, x⟩ := hd
    cases x with
    | none => rw [quick_report_step_none_packages]
    | some pm =>
      rw [quick_report_step_some_packages]
      exact lookupMap_insertMap_ne _ _ _ _ (fun e => hp e.symm)

theorem quick_foldl_without_mono (k : PackageId) :
    ∀ (l : List (Package × Option PackageMetrics)) (r : QuickSafetyReport),
      k ∈ r.packages_without_metrics →
      k ∈ (l.foldl quick_report_step r).packages_without_metrics := by
  intro l
  induction l with
  | nil => intro r h; exact h
  | cons hd t ih =>
    intro r h
    rw [List.foldl_cons]
    obtain ⟨p, x⟩ := hd
    cases x with
    | none =>
      refine ih _ ?_
      rw [quick_report_step_none_without]
      exact mem_insertSet_of_mem _ _ _ h
    | some pm =>
      refine ih _ ?_
      rw [quick_report_step_some_without]
      exact h

theorem quick_foldl_lookup_some (p : Package) (pm : PackageMetrics) :
    ∀ (l : List (Package × Option PackageMetrics)) (r : QuickSafetyReport),
      (p, some pm) ∈ l → (l.map (fun q => q.1.id)).Nodup →
      lookupMap (l.foldl quick_report_step r).packages p.id =
        some ⟨p, pm.rs_path_to_metrics.all
          (fun q => q.2.metrics.forbidsUnsafe)⟩ := by
  intro l
  induction l with
  | nil => intro r hmem _; cases hmem
  | cons hd t ih =>
    intro r hmem hnodup
    obtain ⟨hnotin, hnodup'⟩ :=
      List.nodup_cons.mp (by rw [List.map_cons] at hnodup; exact hnodup)
    rw [List.foldl_cons]
    rcases List.mem_cons.mp hmem with heq | hmem'
    · have huntouched : ∀ pair ∈ t, pair.1.id ≠ p.id := by
        intro pair hq he
        refine hnotin ?_
        rw [← heq]
        exact he ▸ List.mem_map_of_mem (fun q => q.1.id) hq
      rw [quick_foldl_lookup_untouched p.id t _ huntouched, ← heq,
        quick_report_step_some_packages]
      exact lookupMap_insertMap_self _ _ _
    · have hne : hd.1.id ≠ p.id := by
        intro he
        refine hnotin ?_
        exact he ▸ List.mem_map_of_mem (fun q => q.1.id) hmem'
      rw [ih _ hmem' hnodup']
  -- done for the tail case once the accumulator is irrelevant
  -- (the recursive lemma already gives the result for any accumulator)

theorem quick_foldl_none (p : Package) :
    ∀ (l : List (Package × Option PackageMetrics)) (r : QuickSafetyReport),
      (p, none) ∈ l → (l.map (fun q => q.1.id)).Nodup →
      p.id ∈ (l.foldl quick_report_step r).packages_without_metrics ∧
      lookupMap (l.foldl quick_report_step r).packages p.id =
        lookupMap r.packages p.id := by
  intro l
  induction l with
  | nil => intro r hmem _; cases hmem
  | cons hd t ih =>
    intro r hmem hnodup
    obtain ⟨hnotin, hnodup'⟩ :=
      List.nodup_cons.mp (by rw [List.map_cons] at hnodup; exact hnodup)
    rw [List.foldl_cons]
    rcases List.mem_cons.mp hmem with heq | hmem'
    · have huntouched : ∀ pair ∈ t, pair.1.id ≠ p.id := by
        intro pair hq he
        refine hnotin ?_
        rw [← heq]
        exact he ▸ List.mem_map_of_mem (fun q => q.1.id) hq
      constructor
      · refine quick_foldl_without_mono p.id t _ ?_
        rw [← heq, quick_report_step_none_without]
        exact mem_insertSet_self _ _
      · rw [quick_foldl_lookup_untouched p.id t _ huntouched, ← heq,
          quick_report_step_none_packages]
    · have hne : hd.1.id ≠ p.id := by
        intro he
        refine hnotin ?_
        exact he ▸ List.mem_map_of_mem (fun q => q.1.id) hmem'
      obtain ⟨ih1, ih2⟩ := ih (quick_report_step r hd) hmem' hnodup'
      refine ⟨ih1, ?_⟩
      rw [ih2]
      obtain ⟨q, x⟩ := hd
      cases x with
      | none => rw [quick_report_step_none_packages]
      | some pm2 =>
        rw [quick_report_step_some_packages]
        exact lookupMap_insertMap_ne _ _ _ _ (fun e => hne e.symm)

/-! ## Helper lemmas: the full-report fold -/

theorem safety_foldl_lookup_untouched (rs : List RsPath) (k : PackageId) :
    ∀ (l : List (Package × Option PackageMetrics)) (r : SafetyReport),
      (∀ pair ∈ l, pair.1.id ≠ k) →
      lookupMap (l.foldl (safety_report_step rs) r).packages k =
        lookupMap r.packages k := by
  intro l
  induction l with
  | nil => intro r _; rfl
  | cons hd t ih =>
    intro r h
    have hp : hd.1.id ≠ k := h hd (List.mem_cons_self _ _)
    have ht : ∀ pair ∈ t, pair.1.id ≠ k := fun pair hq =>
      h pair (List.mem_cons_of_mem _ hq)
    rw [List.foldl_cons, ih _ ht]
    obtain ⟨p, x⟩ := hd
    cases x with
    | none => rw [safety_report_step_none_packages]
    | some pm =>
      rw [safety_report_step_some_packages]
      exact lookupMap_insertMap_ne _ _ _ _ (fun e => hp e.symm)

theorem safety_foldl_without_mono (rs : List RsPath) (k : PackageId) :
    ∀ (l : List (Package × Option PackageMetrics)) (r : SafetyReport),
      k ∈ r.packages_without_metrics →
      k ∈ (l.foldl (safety_report_step rs) r).packages_without_metrics := by
  intro l
  induction l with
  | nil => intro r h; exact h
  | cons hd t ih =>
    intro r h
    rw [List.foldl_cons]
    obtain ⟨p, x⟩ := hd
    cases x with
    | none =>
      refine ih _ ?_
      rw [safety_report_step_none_without]
      exact mem_insertSet_of_mem _ _ _ h
    | some pm =>
      refine ih _ ?_
      rw [safety_report_step_some_without]
      exact h

theorem safety_foldl_lookup_some (rs : List RsPath) (p : Package)
    (pm : PackageMetrics) :
    ∀ (l : List (Package × Option PackageMetrics)) (r : SafetyReport),
      (p, some pm) ∈ l → (l.map (fun q => q.1.id)).Nodup →
      lookupMap (l.foldl (safety_report_step rs) r).packages p.id =
        some ⟨p, unsafeStats pm rs⟩ := by
  intro l
  induction l with
  | nil => intro r hmem _; cases hmem
  | cons hd t ih =>
    intro r hmem hnodup
    obtain ⟨hnotin, hnodup'⟩ :=
      List.nodup_cons.mp (by rw [List.map_cons] at hnodup; exact hnodup)
    rw [List.foldl_cons]
    rcases List.mem_cons.mp hmem with heq | hmem'
    · have huntouched : ∀ pair ∈ t, pair.1.id ≠ p.id := by
        intro pair hq he
        refine hnotin ?_
        rw [← heq]
        exact he ▸ List.mem_map_of_mem (fun q => q.1.id) hq
      rw [safety_foldl_lookup_untouched rs p.id t _ huntouched, ← heq,
        safety_report_step_some_packages]
      exact lookupMap_insertMap_self _ _ _
    · rw [ih _ hmem' hnodup']

theorem safety_foldl_none (rs : List RsPath) (p : Package) :
    ∀ (l : List (Package × Option PackageMetrics)) (r : SafetyReport),
      (p, none) ∈ l → (l.map (fun q => q.1.id)).Nodup →
      p.id ∈ (l.foldl (safety_report_step rs) r).packages_without_metrics ∧
      lookupMap (l.foldl (safety_report_step rs) r).packages p.id =
        lookupMap r.packages p.id := by
  intro l
  induction l with
  | nil => intro r hmem _; cases hmem
  | cons hd t ih =>
    intro r hmem hnodup
    obtain ⟨hnotin, hnodup'⟩ :=
      List.nodup_cons.mp (by rw [List.map_cons] at hnodup; exact hnodup)
    rw [List.foldl_cons]
    rcases List.mem_cons.mp hmem with heq | hmem'
    · have huntouched : ∀ pair ∈ t, pair.1.id ≠ p.id := by
        intro pair hq he
        refine hnotin ?_
        rw [← heq]
        exact he ▸ List.mem_map_of_mem (fun q => q.1.id) hq
      constructor
      · refine safety_foldl_without_mono rs p.id t _ ?_
        rw [← heq, safety_report_step_none_without]
        exact mem_insertSet_self _ _
      · rw [safety_foldl_lookup_untouched rs p.id t _ huntouched, ← heq,
          safety_report_step_none_packages]
    · have hne : hd.1.id ≠ p.id := by
        intro he
        refine hnotin ?_
        exact he ▸ List.mem_map_of_mem (fun q => q.1.id) hmem'
      obtain ⟨ih1, ih2⟩ := ih (safety_report_step rs r hd) hmem' hnodup'
      refine ⟨ih1, ?_⟩
      rw [ih2]
      obtain ⟨q, x⟩ := hd
      cases x with
      | none => rw [safety_report_step_none_packages]
      | some pm2 =>
        rw [safety_report_step_some_packages]
        exact lookupMap_insertMap_ne _ _ _ _ (fun e => hne e.symm)

/-! ## Claim theorems -/

theorem GraphEdge.transpose_transpose (e : GraphEdge) :
    e.transpose.transpose = e := rfl

/-- C6: Graph inversion is involutive and non-mutating: inverting the edge
view twice reproduces exactly the original edge set (indeed the whole
graph), and a single inversion changes neither the canonical node set nor
the root. -/
theorem graph_invert_involutive (g : Graph) :
    g.invert.invert = g ∧ g.invert.invert.edges = g.edges ∧
      g.invert.nodes = g.nodes ∧ g.invert.root_index = g.root_index := by
  obtain ⟨nodes, edges, root⟩ := g
  refine ⟨?_, ?_, rfl, rfl⟩ <;>
    simp [Graph.invert, List.map_map, Function.comp_def,
      GraphEdge.transpose_transpose]

/-- C9: `parse_features` splits its input on single spaces and filters out
empty fragments: no returned feature is the empty string, and both the
absent input and the empty-string input produce the empty list. -/
theorem parse_features_no_empty :
    (∀ (raw_features : Option String) (s : String),
      s ∈ parse_features raw_features → s ≠ "") ∧
    parse_features none = [] ∧ parse_features (some "") = [] := by
  refine ⟨?_, by decide, by decide⟩
  intro raw_features s hs
  have h := (List.mem_filter.mp hs).2
  simpa using h

/-- Witness for C9: a fragment produced from a concrete `--features` value
is non-empty. -/
theorem parse_features_no_empty_witness : ("test" : String) ≠ "" :=
  parse_features_no_empty.1 (some "test some features") "test" (by decide)

/-- C10: verbosity mapping of `parse_args`: no verbosity flag yields `Quiet`
(which differs from the type's `Default` of `Verbose`), `-v`/`--verbose`
alone yields `Normal`, and `-vv` yields `Verbose` regardless of `-v`. -/
theorem parse_args_verbosity (raw_args : Arguments) :
    ((Args.parse_args raw_args).verbosity = Verbosity.Quiet ↔
      raw_args.contains_vv = false ∧
        raw_args.contains_v_or_verbose = false) ∧
    ((Args.parse_args raw_args).verbosity = Verbosity.Normal ↔
      raw_args.contains_vv = false ∧
        raw_args.contains_v_or_verbose = true) ∧
    ((Args.parse_args raw_args).verbosity = Verbosity.Verbose ↔
      raw_args.contains_vv = true) ∧
    Verbosity.Quiet ≠ Verbosity.default := by
  cases hvv : raw_args.contains_vv <;>
    cases hb : raw_args.contains_v_or_verbose <;>
      simp [Args.parse_args, hvv, hb, Verbosity.default, apply_ite]

/-- Witness for C10 (the claim theorem has only an `Arguments` binder, but a
closed instance is recorded anyway): an empty command line parses to
`Quiet`. -/
theorem parse_args_verbosity_witness :
    (Args.parse_args Arguments.empty).verbosity = Verbosity.Quiet :=
  (parse_args_verbosity Arguments.empty).1.mpr ⟨rfl, rfl⟩

/-- C8: every `Args` value produced by `parse_args` satisfies the invariant
that `update_readme` implies `output_format = GitHubMarkdown`; any other
requested format, including the `Utf8` default, is overridden. -/
theorem parse_args_update_readme_invariant (raw_args : Arguments)
    (h : (Args.parse_args raw_args).readme_args.update_readme = true) :
    (Args.parse_args raw_args).output_format =
      OutputFormat.GitHubMarkdown := by
  simp only [Args.parse_args] at h ⊢
  by_cases hx :
      raw_args.output_format.getD OutputFormat.Utf8 =
        OutputFormat.GitHubMarkdown <;>
    split at h <;> simp_all

/-- Witness for C8: `--update-readme --output-format Ascii` still produces
`GitHubMarkdown`. -/
theorem parse_args_update_readme_invariant_witness :
    (Args.parse_args argsReadme).readme_args.update_readme = true ∧
    (Args.parse_args argsReadme).output_format =
      OutputFormat.GitHubMarkdown :=
  ⟨by decide, parse_args_update_readme_invariant argsReadme (by decide)⟩

/-- C5: the quick (forbid-only) report path invokes the scanner exactly once
with `EntryPointsOnly` and never calls the compiled-file-set resolver; the
full report path performs exactly the calls of `scan`, which always calls
the resolver first and invokes the scanner (with `Full`) only after a
successful resolution. -/
theorem scan_mode_dispatch (env : ScanEnv) (g : Graph) (fmt : OutputFormat)
    (root : PackageId) (sp : ScanParameters) :
    (scan_forbid_to_report env g fmt root).1 =
      [ExtCall.findUnsafeCall ScanMode.EntryPointsOnly] ∧
    ExtCall.resolveRsFileDepsCall ∉ (scan_forbid_to_report env g fmt root).1 ∧
    (scan_to_report env g fmt root sp).1 = (scan env sp).1 ∧
    ((scan env sp).1 = [ExtCall.resolveRsFileDepsCall] ∨
      (scan env sp).1 =
        [ExtCall.resolveRsFileDepsCall,
          ExtCall.findUnsafeCall ScanMode.Full]) := by
  have h1 : (scan_forbid_to_report env g fmt root).1 =
      [ExtCall.findUnsafeCall ScanMode.EntryPointsOnly] := by
    cases hc : env.findUnsafe ScanMode.EntryPointsOnly <;>
      cases fmt <;> simp [scan_forbid_to_report, hc]
  refine ⟨h1, ?_, ?_, ?_⟩
  · rw [h1]; decide
  · rcases hs : scan env sp with ⟨t, res⟩
    cases res <;> cases fmt <;> simp [scan_to_report, hs]
  · cases hr :
        env.resolveRsFileDeps
          (build_compile_options sp.args.features_args) with
    | error e => exact Or.inl (by simp [scan, hr])
    | ok rs =>
      refine Or.inr ?_
      cases hf : env.findUnsafe ScanMode.Full <;> simp [scan, hr, hf]

/-- C3: if the compiled-file-set resolver fails, `scan` returns the error
(as `CliError::new(err, 1)`) and `scan_to_report` propagates it before any
report is constructed: the result is the error and the trace shows the
scanner was never invoked. -/
theorem scan_failure_aborts (env : ScanEnv) (sp : ScanParameters) (g : Graph)
    (fmt : OutputFormat) (root : PackageId) (e : RsResolveError)
    (hres :
      env.resolveRsFileDeps (build_compile_options sp.args.features_args) =
        Except.error e) :
    (scan env sp).2 = RunResult.err (CliError.new e.msg 1) ∧
    scan_to_report env g fmt root sp =
      ([ExtCall.resolveRsFileDepsCall],
        RunResult.err (CliError.new e.msg 1)) := by
  have h1 : scan env sp =
      ([ExtCall.resolveRsFileDepsCall],
        RunResult.err (CliError.new e.msg 1)) := by
    simp [scan, hres]
  exact ⟨by rw [h1], by simp [scan_to_report, h1]⟩

/-- Witness for C3: a concrete environment whose resolver cannot produce a
compile plan makes the full scan fail without any report. -/
theorem scan_failure_aborts_witness :
    scan_to_report demoEnvFail demoGraph OutputFormat.Json "pkg-a" demoSP =
      ([ExtCall.resolveRsFileDepsCall],
        RunResult.err (CliError.new "no compile plan" 1)) :=
  (scan_failure_aborts demoEnvFail demoSP demoGraph OutputFormat.Json
    "pkg-a" ⟨"no compile plan"⟩ rfl).2

/-- C7: the full scan is deterministic: two runs over the same graph, the
same scan context (scanner agreeing in `Full` mode), the same aggregator
and the same compiled file set produce identical results, in particular
byte-identical serialized JSON reports — even if the two environments
differ elsewhere (e.g. in `EntryPointsOnly` mode). -/
theorem full_scan_deterministic (env1 env2 : ScanEnv) (g : Graph)
    (root : PackageId) (sp : ScanParameters)
    (hres : env1.resolveRsFileDeps = env2.resolveRsFileDeps)
    (hfind : env1.findUnsafe ScanMode.Full = env2.findUnsafe ScanMode.Full)
    (hpm : env1.packageMetricsFn = env2.packageMetricsFn) :
    scan_to_report env1 g OutputFormat.Json root sp =
      scan_to_report env2 g OutputFormat.Json root sp := by
  have hscan : scan env1 sp = scan env2 sp := by
    unfold scan
    rw [hres, hfind]
  simp [scan_to_report, hscan, package_metrics, hpm]

/-- Witness for C7: two concrete environments that differ in
`EntryPointsOnly` mode but agree on the full-scan inputs produce identical
reports. -/
theorem full_scan_deterministic_witness :
    demoEnvA.findUnsafe ScanMode.Full = demoEnvB.findUnsafe ScanMode.Full ∧
    scan_to_report demoEnvA demoGraph OutputFormat.Json "pkg-a" demoSP =
      scan_to_report demoEnvB demoGraph OutputFormat.Json "pkg-a" demoSP :=
  ⟨rfl,
    full_scan_deterministic demoEnvA demoEnvB demoGraph "pkg-a" demoSP rfl
      rfl rfl⟩

/-- C2: in the full-mode report, `used_but_not_scanned_files` equals the
set difference between the compiled file set and the paths the scanner
visited: when resolution and scanning succeed, `scan_to_report` emits
exactly the serialized report built by `build_safety_report`, and a path is
in that report's `used_but_not_scanned_files` iff it is compiled but not
visited — no compiled-but-unscanned path is dropped. -/
theorem used_but_not_scanned_eq_diff (env : ScanEnv) (sp : ScanParameters)
    (g : Graph) (root : PackageId) (rs : List RsPath) (ctx : GeigerContext)
    (hres :
      env.resolveRsFileDeps (build_compile_options sp.args.features_args) =
        Except.ok rs)
    (hfind : env.findUnsafe ScanMode.Full = Except.ok ctx) :
    (scan_to_report env g OutputFormat.Json root sp).2 =
      RunResult.ok
        ⟨[serializeSafetyReport
            (build_safety_report (package_metrics env ctx g root) rs ctx)],
          0⟩ ∧
    ∀ p : RsPath,
      p ∈ (build_safety_report (package_metrics env ctx g root) rs
            ctx).used_but_not_scanned_files ↔
        p ∈ rs ∧ p ∉ visitedPaths ctx := by
  constructor
  · simp [scan_to_report, scan, hres, hfind]
  · intro p
    have hfield :
        (build_safety_report (package_metrics env ctx g root) rs
            ctx).used_but_not_scanned_files =
          list_files_used_but_not_scanned ctx rs := rfl
    rw [hfield]
    unfold list_files_used_but_not_scanned
    rw [List.mem_filter]
    simp [List.elem_iff]

/-- Witness for C2: with a concrete environment in which `src/extra.rs` is
compiled but never visited, that path appears in the diagnostic set. -/
theorem used_but_not_scanned_eq_diff_witness :
    ("src/extra.rs" : RsPath) ∈
      (build_safety_report
          (package_metrics demoEnvB demoCtx demoGraph "pkg-a")
          ["src/lib.rs", "src/extra.rs"]
          demoCtx).used_but_not_scanned_files :=
  ((used_but_not_scanned_eq_diff demoEnvB demoSP demoGraph "pkg-a"
        ["src/lib.rs", "src/extra.rs"] demoCtx rfl rfl).2
      "src/extra.rs").mpr ⟨by decide, by decide⟩

/-- C1: in the quick report, a package with metrics gets an entry whose
`forbids_unsafe` verdict is true iff every owned file reports
`forbids_unsafe = true`; a package without metrics gets no entry (so no
`true` verdict — the permissive default) and is recorded in
`packages_without_metrics`. -/
theorem quick_report_verdict
    (l : List (Package × Option PackageMetrics))
    (hnodup : (l.map (fun q => q.1.id)).Nodup) :
    (∀ (p : Package) (pm : PackageMetrics), (p, some pm) ∈ l →
      lookupMap (build_quick_report l).packages p.id =
        some ⟨p, pm.rs_path_to_metrics.all
          (fun q => q.2.metrics.forbidsUnsafe)⟩ ∧
      (pm.rs_path_to_metrics.all (fun q => q.2.metrics.forbidsUnsafe) =
          true ↔
        ∀ (path : RsPath) (w : RsFileMetricsWrapper),
          (path, w) ∈ pm.rs_path_to_metrics →
            w.metrics.forbidsUnsafe = true)) ∧
    (∀ p : Package, (p, none) ∈ l →
      p.id ∈ (build_quick_report l).packages_without_metrics ∧
      lookupMap (build_quick_report l).packages p.id = none) := by
  constructor
  · intro p pm hmem
    constructor
    · exact quick_foldl_lookup_some p pm l QuickSafetyReport.default hmem
        hnodup
    · rw [List.all_eq_true]
      constructor
      · intro h path w hw
        exact h (path, w) hw
      · intro h q hq
        obtain ⟨path, w⟩ := q
        exact h path w hq
  · intro p hmem
    obtain ⟨h1, h2⟩ :=
      quick_foldl_none p l QuickSafetyReport.default hmem hnodup
    exact ⟨h1, h2⟩

/-- Witness for C1: in a concrete aggregator output, the measured package
`pkg-a` gets the verdict `true` (its single file forbids the construct) and
the metrics-less package `pkg-b` is recorded without a verdict. -/
theorem quick_report_verdict_witness :
    lookupMap (build_quick_report demoList).packages "pkg-a" =
      some ⟨⟨"pkg-a"⟩, true⟩ ∧
    ("pkg-b" : PackageId) ∈
      (build_quick_report demoList).packages_without_metrics :=
  ⟨((quick_report_verdict demoList (by decide)).1 ⟨"pkg-a"⟩ demoPM
      (by decide)).1,
    ((quick_report_verdict demoList (by decide)).2 ⟨"pkg-b"⟩ (by decide)).1⟩

/-- C4: in both report builders, a package whose metrics lookup yields
nothing is recorded in `packages_without_metrics` and contributes no report
entry (hence nothing to any numeric aggregate): its id is absent from the
`packages` map of both the quick and the full report. -/
theorem packages_without_metrics_skipped
    (l : List (Package × Option PackageMetrics)) (rs : List RsPath)
    (ctx : GeigerContext)
    (hnodup : (l.map (fun q => q.1.id)).Nodup) :
    ∀ p : Package, (p, none) ∈ l →
      (p.id ∈ (build_quick_report l).packages_without_metrics ∧
        lookupMap (build_quick_report l).packages p.id = none) ∧
      (p.id ∈ (build_safety_report l rs ctx).packages_without_metrics ∧
        lookupMap (build_safety_report l rs ctx).packages p.id = none) := by
  intro p hmem
  obtain ⟨h1, h2⟩ :=
    quick_foldl_none p l QuickSafetyReport.default hmem hnodup
  obtain ⟨h3, h4⟩ :=
    safety_foldl_none rs p l SafetyReport.default hmem hnodup
  exact ⟨⟨h1, h2⟩, ⟨h3, h4⟩⟩

/-- Witness for C4: the metrics-less package `pkg-b` of a concrete
aggregator output is diagnosed and entry-less in both report shapes. -/
theorem packages_without_metrics_skipped_witness :
    (("pkg-b" : PackageId) ∈
        (build_quick_report demoList).packages_without_metrics ∧
      lookupMap (build_quick_report demoList).packages "pkg-b" = none) ∧
    (("pkg-b" : PackageId) ∈
        (build_safety_report demoList ["src/lib.rs"]
          demoCtx).packages_without_metrics ∧
      lookupMap
          (build_safety_report demoList ["src/lib.rs"] demoCtx).packages
          "pkg-b" = none) :=
  packages_without_metrics_skipped demoList ["src/lib.rs"] demoCtx
    (by decide) ⟨"pkg-b"⟩ (by decide)
